import Mathlib

/-!
Verification of the client-side orchestration core of the RedHat AI Security
Agent console (`src/frontend/src/App.tsx`).

The component keeps six pieces of React state (`activeTab`, `techniques`,
`attackPlans`, `safetyConfig`, `loading`, `error`) and exposes five async
operations (`loadDashboardData`, `learnFromUrl`, `createAttackPlan`,
`testChatbot`, `emergencyStop`) plus two guarded click handlers and a tab
selector.  Each operation is embedded as the exact trace of primitive effects
it performs — `setState` calls, network requests and `alert`s, in source
order, including the interleaving of the un-awaited refresh that the write
operations fire — and `run` folds the state-mutating steps over an `AppState`.
Server responses are passed in as `Except`/`Option` values: `Except.error`
models a rejected axios promise, an inner `none` models a response body whose
expected field is absent (so that reading `.length` on it throws).
-/

deriving instance DecidableEq for Except

namespace RedhatAgent

/-- `Technique` record, from the `Technique` interface in `App.tsx`. -/
structure Technique where
  id : Nat
  name : String
  description : String
  category : String
  severity : Option String := none
  tags : Option (List String) := none
  timestamp : Option String := none
deriving DecidableEq

/-- The target record built by the Create Attack Plan click handler
(`{ name, url, type: 'web_application' }`). -/
structure Target where
  name : String
  url : String
  type : String
deriving DecidableEq

/-- `AttackPlan` record, from the `AttackPlan` interface in `App.tsx`. -/
structure AttackPlan where
  id : Nat
  target : Target
  objectives : List String
  status : String
  timestamp : String
  phases : Option String := none
deriving DecidableEq

/-- `SafetyConfig` record, from the `SafetyConfig` interface in `App.tsx`. -/
structure SafetyConfig where
  require_authorization : Bool
  log_all_activities : Bool
  block_unauthorized_targets : Bool
  max_concurrent_attacks : Nat
  emergency_stop_enabled : Bool
deriving DecidableEq

/-- The six `useState` hooks of the `App` component. -/
structure AppState where
  activeTab : String
  techniques : List Technique
  attackPlans : List AttackPlan
  safetyConfig : Option SafetyConfig
  loading : Bool
  error : Option String
deriving DecidableEq

/-- The initial values of the six `useState` hooks. -/
def initialState : AppState :=
  { activeTab := "dashboard", techniques := [], attackPlans := [],
    safetyConfig := none, loading := false, error := none }

/-- One HTTP request issued through axios, with the data that goes into its
body.  The base URL and JSON framing are transport details left out. -/
inductive Request where
  | getTechniques
  | getAttackPlans
  | getSafetyConfig
  | postLearnUrl (url : String)
  | postAttackPlan (target : Target) (objectives : List String)
  | postChatbotTest (url : String) (testType : String)
  | postEmergencyStop (reason : String)
deriving DecidableEq

/-- A primitive effect of an operation: a React `setX` call, a network
request, or a browser `alert`. -/
inductive Step where
  | setLoading (b : Bool)
  | setError (e : Option String)
  | setTechniques (ts : List Technique)
  | setAttackPlans (ps : List AttackPlan)
  | setSafetyConfig (c : Option SafetyConfig)
  | setActiveTab (t : String)
  | request (r : Request)
  | alert (msg : String)
deriving DecidableEq

/-- Effect of one step on the component state; requests and alerts do not
touch the state. -/
def applyStep (s : AppState) : Step → AppState
  | .setLoading b => { s with loading := b }
  | .setError e => { s with error := e }
  | .setTechniques ts => { s with techniques := ts }
  | .setAttackPlans ps => { s with attackPlans := ps }
  | .setSafetyConfig c => { s with safetyConfig := c }
  | .setActiveTab t => { s with activeTab := t }
  | .request _ => s
  | .alert _ => s

/-- Run a trace of steps over a state. -/
def run (s : AppState) (steps : List Step) : AppState :=
  steps.foldl applyStep s

/-- The network requests a trace issues, in order. -/
def networkRequests (steps : List Step) : List Request :=
  steps.filterMap fun st =>
    match st with
    | .request r => some r
    | _ => none

/-- Outcome of the three parallel GETs of `loadDashboardData`.  Each field is
the settled axios promise: `Except.error` is a rejection, and the inner
`Option` is the presence of the expected field in the response body
(`res.data.techniques`, `res.data.attack_plans`, `res.data.safety_config`). -/
structure DashboardFetch where
  techniquesRes : Except String (Option (List Technique))
  attacksRes : Except String (Option (List AttackPlan))
  safetyRes : Except String (Option SafetyConfig)
deriving DecidableEq

/-- `Promise.all` over the three dashboard GETs: resolves iff all three
resolve, rejects with the first rejection otherwise. -/
def fetchAll (f : DashboardFetch) :
    Except String
      (Option (List Technique) × Option (List AttackPlan) × Option SafetyConfig) :=
  match f.techniquesRes, f.attacksRes, f.safetyRes with
  | .ok t, .ok a, .ok c => .ok (t, a, c)
  | .error e, _, _ => .error e
  | .ok _, .error e, _ => .error e
  | .ok _, .ok _, .error e => .error e

/-- The synchronous head of `loadDashboardData`: `setLoading(true)` and the
three GETs are issued before the function first suspends at `await`. -/
def loadDashboardDataIssue : List Step :=
  [Step.setLoading true, Step.request .getTechniques,
   Step.request .getAttackPlans, Step.request .getSafetyConfig]

/-- The rest of `loadDashboardData`, after its `await Promise.all` settles:
on success the three slices are replaced (`|| []` / `|| null` defaulting the
missing fields), on failure `setError`; the `finally` clears `loading`. -/
def loadDashboardDataSettle (f : DashboardFetch) : List Step :=
  (match fetchAll f with
   | .ok (t, a, c) =>
       [Step.setTechniques (t.getD []), Step.setAttackPlans (a.getD []),
        Step.setSafetyConfig c]
   | .error _ => [Step.setError (some "Failed to load dashboard data")]) ++
  [Step.setLoading false]

/-- Full trace of `loadDashboardData` (the `refresh` operation). -/
def loadDashboardDataSteps (f : DashboardFetch) : List Step :=
  loadDashboardDataIssue ++ loadDashboardDataSettle f

/-- The success alert of `learnFromUrl`, reading
`response.data.techniques.length`. -/
def learnAlertMsg (ts : List Technique) : String :=
  "Successfully learned " ++ toString ts.length ++ " new techniques!"

/-- Trace of `learnFromUrl(url)`.  `resp` is the settled POST: a rejection or
the (possibly field-less) response body.  On success the un-awaited
`loadDashboardData()` runs its synchronous head, then `learnFromUrl`'s own
`finally` clears `loading`, then the refresh settles.  A response without a
`techniques` field makes the alert expression throw, landing in `catch`. -/
def learnFromUrlSteps (url : String)
    (resp : Except String (Option (List Technique))) (dash : DashboardFetch) :
    List Step :=
  [Step.setLoading true, Step.request (.postLearnUrl url)] ++
  match resp with
  | .ok (some ts) =>
      [Step.alert (learnAlertMsg ts)] ++
      loadDashboardDataIssue ++ [Step.setLoading false] ++
      loadDashboardDataSettle dash
  | .ok none =>
      [Step.setError (some "Failed to learn from URL"), Step.setLoading false]
  | .error _ =>
      [Step.setError (some "Failed to learn from URL"), Step.setLoading false]

/-- Trace of `createAttackPlan(target, objectives)`; the response body is
never read, so only resolution vs. rejection matters. -/
def createAttackPlanSteps (target : Target) (objectives : List String)
    (resp : Except String Unit) (dash : DashboardFetch) : List Step :=
  [Step.setLoading true, Step.request (.postAttackPlan target objectives)] ++
  match resp with
  | .ok _ =>
      [Step.alert "Attack plan created successfully!"] ++
      loadDashboardDataIssue ++ [Step.setLoading false] ++
      loadDashboardDataSettle dash
  | .error _ =>
      [Step.setError (some "Failed to create attack plan"),
       Step.setLoading false]

/-- `results.test_summary` of a chatbot test response. -/
structure TestSummary where
  risk_level : String
deriving DecidableEq

/-- `results` of a chatbot test response. -/
structure ChatbotResults where
  vulnerabilities_found : List String
  test_summary : TestSummary
deriving DecidableEq

/-- The alert shown by `testChatbot` on success. -/
def chatbotAlertMsg (r : ChatbotResults) : String :=
  "Chatbot test completed!\nVulnerabilities found: " ++
    toString r.vulnerabilities_found.length ++
    "\nRisk level: " ++ r.test_summary.risk_level

/-- Trace of `testChatbot(url, testType)`. -/
def testChatbotSteps (url : String) (testType : String)
    (resp : Except String ChatbotResults) : List Step :=
  [Step.setLoading true, Step.request (.postChatbotTest url testType)] ++
  (match resp with
   | .ok r => [Step.alert (chatbotAlertMsg r)]
   | .error _ => [Step.setError (some "Failed to test chatbot")]) ++
  [Step.setLoading false]

/-- Trace of `emergencyStop()`: note the source has no `setLoading` calls and
no `finally` block here, only the POST, the alert, and the catch. -/
def emergencyStopSteps (resp : Except String Unit) : List Step :=
  [Step.request (.postEmergencyStop "Manual emergency stop from UI")] ++
  match resp with
  | .ok _ => [Step.alert "Emergency stop activated!"]
  | .error _ => [Step.setError (some "Failed to activate emergency stop")]

/-- The Learn-from-URL button handler:
`const url = prompt(...); if (url) learnFromUrl(url);` — a cancelled prompt
(`none`) or an empty string is falsy and dispatches nothing. -/
def learnFromUrlClickSteps (promptResult : Option String)
    (resp : Except String (Option (List Technique))) (dash : DashboardFetch) :
    List Step :=
  match promptResult with
  | none => []
  | some url => if url = "" then [] else learnFromUrlSteps url resp dash

/-- The Test Chatbot button handler:
`if (input.value) testChatbot(input.value)` — an empty input dispatches
nothing; `testType` defaults to "basic". -/
def testChatbotClickSteps (inputValue : String)
    (resp : Except String ChatbotResults) : List Step :=
  if inputValue = "" then [] else testChatbotSteps inputValue "basic" resp

/-- A nav-tab click: `onClick={() => setActiveTab(tab)}` — the only effect. -/
def selectTabSteps (tab : String) : List Step :=
  [Step.setActiveTab tab]

/-- One invocation of one of the five orchestration operations, with the
settled responses it observes. -/
inductive OpCall where
  | refresh (f : DashboardFetch)
  | learn (url : String) (resp : Except String (Option (List Technique)))
      (dash : DashboardFetch)
  | plan (target : Target) (objectives : List String)
      (resp : Except String Unit) (dash : DashboardFetch)
  | chatbot (url : String) (testType : String)
      (resp : Except String ChatbotResults)
  | estop (resp : Except String Unit)
deriving DecidableEq

/-- The trace an operation call performs. -/
def OpCall.steps : OpCall → List Step
  | .refresh f => loadDashboardDataSteps f
  | .learn url resp dash => learnFromUrlSteps url resp dash
  | .plan t objs resp dash => createAttackPlanSteps t objs resp dash
  | .chatbot url ty resp => testChatbotSteps url ty resp
  | .estop resp => emergencyStopSteps resp

/-- Whether an `Except` is a rejection. -/
def isErr {ε α : Type} : Except ε α → Bool
  | .error _ => true
  | .ok _ => false

/-- Whether the operation call lands in its `catch` block (ends Failed). -/
def OpCall.failed : OpCall → Bool
  | .refresh f => isErr (fetchAll f)
  | .learn _ resp _ =>
      match resp with
      | .ok (some _) => false
      | _ => true
  | .plan _ _ resp _ => isErr resp
  | .chatbot _ _ resp => isErr resp
  | .estop resp => isErr resp

/-- The message each operation's `catch` block passes to `setError`. -/
def OpCall.failMsg : OpCall → String
  | .refresh _ => "Failed to load dashboard data"
  | .learn _ _ _ => "Failed to learn from URL"
  | .plan _ _ _ _ => "Failed to create attack plan"
  | .chatbot _ _ _ => "Failed to test chatbot"
  | .estop _ => "Failed to activate emergency stop"

/-- Whether the call is the `emergencyStop` operation. -/
def OpCall.isEstop : OpCall → Bool
  | .estop _ => true
  | _ => false

/-- A sequence of refresh operations run back to back. -/
def runRefreshes (s : AppState) (fs : List DashboardFetch) : AppState :=
  fs.foldl (fun st f => run st (loadDashboardDataSteps f)) s

/-! ### Concrete fixtures used by witnesses and counterexamples -/

/-- A sample safety configuration. -/
def sampleConfig : SafetyConfig :=
  { require_authorization := true, log_all_activities := true,
    block_unauthorized_targets := true, max_concurrent_attacks := 1,
    emergency_stop_enabled := true }

/-- A sample technique. -/
def tech1 : Technique :=
  { id := 1, name := "Prompt injection", description := "Injected prompt",
    category := "prompt" }

/-- A sample target. -/
def target1 : Target :=
  { name := "Acme", url := "https://acme.test", type := "web_application" }

/-- A sample attack plan. -/
def plan1 : AttackPlan :=
  { id := 1, target := target1,
    objectives := ["Identify vulnerabilities", "Test security controls"],
    status := "created", timestamp := "2025-01-01T00:00:00Z" }

/-- A dashboard fetch where all three GETs resolve with empty collections. -/
def dashOk0 : DashboardFetch :=
  { techniquesRes := .ok (some []), attacksRes := .ok (some []),
    safetyRes := .ok none }

/-- A dashboard fetch where all three GETs resolve with full bodies. -/
def dashOkFull : DashboardFetch :=
  { techniquesRes := .ok (some []), attacksRes := .ok (some []),
    safetyRes := .ok (some sampleConfig) }

/-- A dashboard fetch carrying one technique, one plan and a config. -/
def dashPayload : DashboardFetch :=
  { techniquesRes := .ok (some [tech1]), attacksRes := .ok (some [plan1]),
    safetyRes := .ok (some sampleConfig) }

/-- A dashboard fetch whose techniques GET is rejected. -/
def dashFail : DashboardFetch :=
  { techniquesRes := .error "Network Error", attacksRes := .ok (some []),
    safetyRes := .ok none }

/-- A state in which a previous failed operation has set the error slice. -/
def stateWithError : AppState :=
  { initialState with error := some "Failed to learn from URL" }

/-! ### Helper lemmas -/

lemma run_append (s : AppState) (l1 l2 : List Step) :
    run s (l1 ++ l2) = run (run s l1) l2 :=
  List.foldl_append applyStep s l1 l2

lemma run_nil (s : AppState) : run s [] = s := rfl

lemma run_cons (s : AppState) (st : Step) (l : List Step) :
    run s (st :: l) = run (applyStep s st) l := rfl

/-- A trace ending in `setLoading false` leaves `loading` false. -/
lemma loading_after_append_false (s : AppState) (l : List Step) :
    (run s (l ++ [Step.setLoading false])).loading = false := by
  rw [run_append]; rfl

/-- The settle phase of a refresh always ends with `loading` false. -/
lemma loading_after_settle (s : AppState) (f : DashboardFetch) :
    (run s (loadDashboardDataSettle f)).loading = false := by
  unfold loadDashboardDataSettle
  exact loading_after_append_false s _

/-- A single step other than `setError none` cannot clear a set error. -/
lemma error_after_applyStep (s : AppState) (st : Step)
    (hst : st ≠ Step.setError none) (h : s.error ≠ none) :
    (applyStep s st).error ≠ none := by
  cases st with
  | setError e =>
      cases e with
      | none => exact absurd rfl hst
      | some m => simp [applyStep]
  | setLoading b => simpa [applyStep] using h
  | setTechniques ts => simpa [applyStep] using h
  | setAttackPlans ps => simpa [applyStep] using h
  | setSafetyConfig c => simpa [applyStep] using h
  | setActiveTab t => simpa [applyStep] using h
  | request r => simpa [applyStep] using h
  | alert m => simpa [applyStep] using h

/-- A trace containing no `setError none` step cannot clear a set error. -/
lemma run_error_ne_none (s : AppState) (steps : List Step)
    (hs : Step.setError none ∉ steps) (h : s.error ≠ none) :
    (run s steps).error ≠ none := by
  induction steps generalizing s with
  | nil => exact h
  | cons st rest ih =>
      rw [run_cons]
      have hne : st ≠ Step.setError none := fun he => hs (he ▸ List.mem_cons_self st rest)
      exact ih (applyStep s st) (fun hm => hs (List.mem_cons_of_mem st hm))
        (error_after_applyStep s st hne h)

/-- No operation trace contains a `setError none` step: the source never
calls `setError(null)`. -/
lemma noErrorClear_op (c : OpCall) : Step.setError none ∉ c.steps := by
  cases c with
  | refresh f =>
      cases h : fetchAll f with
      | ok v =>
          obtain ⟨t, a, cc⟩ := v
          simp [OpCall.steps, loadDashboardDataSteps, loadDashboardDataIssue,
            loadDashboardDataSettle, h]
      | error e =>
          simp [OpCall.steps, loadDashboardDataSteps, loadDashboardDataIssue,
            loadDashboardDataSettle, h]
  | learn url resp dash =>
      cases resp with
      | ok o =>
          cases o with
          | some ts =>
              cases h : fetchAll dash with
              | ok v =>
                  obtain ⟨t, a, cc⟩ := v
                  simp [OpCall.steps, learnFromUrlSteps, loadDashboardDataIssue,
                    loadDashboardDataSettle, h]
              | error e =>
                  simp [OpCall.steps, learnFromUrlSteps, loadDashboardDataIssue,
                    loadDashboardDataSettle, h]
          | none => simp [OpCall.steps, learnFromUrlSteps]
      | error e => simp [OpCall.steps, learnFromUrlSteps]
  | plan t objs resp dash =>
      cases resp with
      | ok u =>
          cases h : fetchAll dash with
          | ok v =>
              obtain ⟨tt, a, cc⟩ := v
              simp [OpCall.steps, createAttackPlanSteps, loadDashboardDataIssue,
                loadDashboardDataSettle, h]
          | error e =>
              simp [OpCall.steps, createAttackPlanSteps, loadDashboardDataIssue,
                loadDashboardDataSettle, h]
      | error e => simp [OpCall.steps, createAttackPlanSteps]
  | chatbot url ty resp =>
      cases resp with
      | ok r => simp [OpCall.steps, testChatbotSteps]
      | error e => simp [OpCall.steps, testChatbotSteps]
  | estop resp =>
      cases resp with
      | ok u => simp [OpCall.steps, emergencyStopSteps]
      | error e => simp [OpCall.steps, emergencyStopSteps]

/-- Refresh, on success, replaces the three slices with the fetched payload
(defaulted by `|| []` / `|| null`), independently of the prior state. -/
lemma refresh_success_slices (s : AppState) (f : DashboardFetch)
    (t : Option (List Technique)) (a : Option (List AttackPlan))
    (c : Option SafetyConfig) (h : fetchAll f = Except.ok (t, a, c)) :
    (run s (loadDashboardDataSteps f)).techniques = t.getD [] ∧
    (run s (loadDashboardDataSteps f)).attackPlans = a.getD [] ∧
    (run s (loadDashboardDataSteps f)).safetyConfig = c := by
  refine ⟨?_, ?_, ?_⟩ <;>
    simp [loadDashboardDataSteps, loadDashboardDataIssue,
      loadDashboardDataSettle, h, run, applyStep]

lemma loading_after_refresh (s : AppState) (f : DashboardFetch) :
    (run s (loadDashboardDataSteps f)).loading = false := by
  simp only [loadDashboardDataSteps, run_append]
  exact loading_after_settle _ f

lemma loading_after_learn (s : AppState) (url : String)
    (resp : Except String (Option (List Technique))) (dash : DashboardFetch) :
    (run s (learnFromUrlSteps url resp dash)).loading = false := by
  cases resp with
  | ok o =>
      cases o with
      | some ts =>
          simp only [learnFromUrlSteps, run_append]
          exact loading_after_settle _ dash
      | none => rfl
  | error e => rfl

lemma loading_after_plan (s : AppState) (t : Target) (objs : List String)
    (resp : Except String Unit) (dash : DashboardFetch) :
    (run s (createAttackPlanSteps t objs resp dash)).loading = false := by
  cases resp with
  | ok u =>
      simp only [createAttackPlanSteps, run_append]
      exact loading_after_settle _ dash
  | error e => rfl

lemma loading_after_chatbot (s : AppState) (url ty : String)
    (resp : Except String ChatbotResults) :
    (run s (testChatbotSteps url ty resp)).loading = false := by
  cases resp with
  | ok r => rfl
  | error e => rfl

lemma estop_no_loading_steps (resp : Except String Unit) :
    Step.setLoading true ∉ emergencyStopSteps resp ∧
    Step.setLoading false ∉ emergencyStopSteps resp := by
  cases resp with
  | ok u => constructor <;> simp [emergencyStopSteps]
  | error e => constructor <;> simp [emergencyStopSteps]

lemma loading_after_estop (s : AppState) (resp : Except String Unit) :
    (run s (emergencyStopSteps resp)).loading = s.loading := by
  cases resp with
  | ok u => rfl
  | error e => rfl

lemma networkRequests_settle (f : DashboardFetch) :
    networkRequests (loadDashboardDataSettle f) = [] := by
  cases h : fetchAll f with
  | ok v =>
      obtain ⟨t, a, c⟩ := v
      simp [loadDashboardDataSettle, networkRequests, h]
  | error e => simp [loadDashboardDataSettle, networkRequests, h]

lemma networkRequests_append (l1 l2 : List Step) :
    networkRequests (l1 ++ l2) = networkRequests l1 ++ networkRequests l2 := by
  simp [networkRequests, List.filterMap_append]

/-! ### Claims -/

/-- C1: counterexample — the claim that every call of `learnFromUrl` with an
empty url performs zero network calls and no loading transition is false: the
operation function has no url check, so `learnFromUrl("")` still issues the
POST and sets loading true, shown here at a rejected response. -/
theorem C1_counterexample :
    networkRequests (learnFromUrlSteps "" (Except.error "Network Error") dashOk0)
      ≠ [] ∧
    Step.setLoading true ∈
      learnFromUrlSteps "" (Except.error "Network Error") dashOk0 := by
  constructor
  · simp [learnFromUrlSteps, networkRequests]
  · simp [learnFromUrlSteps]

/-- C1 (amended): the empty-url rejection lives in the UI click handlers, not
in the operation functions — with a cancelled prompt or an empty input the
handlers dispatch nothing: the trace is empty, so zero network requests are
issued and the state, loading included, is unchanged. -/
theorem C1_empty_url_guard (s : AppState) (pr : Option String)
    (resp : Except String (Option (List Technique))) (dash : DashboardFetch)
    (cresp : Except String ChatbotResults)
    (h : pr = none ∨ pr = some "") :
    learnFromUrlClickSteps pr resp dash = [] ∧
    run s (learnFromUrlClickSteps pr resp dash) = s ∧
    testChatbotClickSteps "" cresp = [] ∧
    run s (testChatbotClickSteps "" cresp) = s := by
  rcases h with h | h <;> subst h <;> exact ⟨rfl, rfl, rfl, rfl⟩

/-- C1: witness — the amended statement at an empty prompt result and an
empty chatbot-url input. -/
theorem C1_empty_url_guard_witness :
    learnFromUrlClickSteps (some "") (Except.error "Network Error") dashOk0
      = [] ∧
    run initialState
      (learnFromUrlClickSteps (some "") (Except.error "Network Error") dashOk0)
      = initialState ∧
    testChatbotClickSteps "" (Except.error "Network Error") = [] ∧
    run initialState (testChatbotClickSteps "" (Except.error "Network Error"))
      = initialState :=
  C1_empty_url_guard initialState (some "") (Except.error "Network Error")
    dashOk0 (Except.error "Network Error") (Or.inr rfl)

/-- C2: counterexample — a refresh in which all three fetches succeed leaves a
previously set error in place: the error slice is neither cleared on entering
Pending nor null after the successful operation completes, refuting the
claim. -/
theorem C2_counterexample :
    isErr (fetchAll dashOkFull) = false ∧
    (run stateWithError (loadDashboardDataSteps dashOkFull)).error =
      some "Failed to learn from URL" :=
  ⟨rfl, rfl⟩

/-- C2 (amended): no operation ever writes `none` to the error slice —
entering Pending sets `loading` but leaves `error` untouched, and an error set
by an earlier failed operation survives every later operation, successful ones
included. -/
theorem C2_error_never_cleared (c : OpCall) (s : AppState)
    (h : s.error ≠ none) :
    Step.setError none ∉ c.steps ∧ (run s c.steps).error ≠ none :=
  ⟨noErrorClear_op c, run_error_ne_none s c.steps (noErrorClear_op c) h⟩

/-- C2: witness — the amended statement at a fully successful refresh run
from a state carrying an error. -/
theorem C2_error_never_cleared_witness :
    Step.setError none ∉ (OpCall.refresh dashOkFull).steps ∧
    (run stateWithError (OpCall.refresh dashOkFull).steps).error ≠ none :=
  C2_error_never_cleared (OpCall.refresh dashOkFull) stateWithError
    (by simp [stateWithError, initialState])

/-- C3: counterexample — `emergencyStop` does not follow the shared
lifecycle: its trace never sets `loading` true, and run from a state with
`loading` true it completes with `loading` still true instead of clearing
it. -/
theorem C3_counterexample :
    Step.setLoading true ∉ emergencyStopSteps (Except.ok ()) ∧
    (run { initialState with loading := true }
        (emergencyStopSteps (Except.ok ()))).loading = true := by
  constructor
  · simp [emergencyStopSteps]
  · rfl

/-- C3 (amended): four of the five operations — refresh, learnFromUrl,
createAttackPlan and testChatbot — follow the shared lifecycle: their trace
begins with `setLoading true` and they finish with `loading` false on success
and failure alike; `emergencyStop` is the exception and never touches the
loading flag at all. -/
theorem C3_loading_lifecycle (c : OpCall) (s : AppState) :
    (c.isEstop = false →
      c.steps.head? = some (Step.setLoading true) ∧
      (run s c.steps).loading = false) ∧
    (c.isEstop = true →
      Step.setLoading true ∉ c.steps ∧ Step.setLoading false ∉ c.steps ∧
      (run s c.steps).loading = s.loading) := by
  cases c with
  | refresh f =>
      exact ⟨fun _ => ⟨rfl, loading_after_refresh s f⟩,
        fun h => by simp [OpCall.isEstop] at h⟩
  | learn url resp dash =>
      exact ⟨fun _ => ⟨rfl, loading_after_learn s url resp dash⟩,
        fun h => by simp [OpCall.isEstop] at h⟩
  | plan t objs resp dash =>
      exact ⟨fun _ => ⟨rfl, loading_after_plan s t objs resp dash⟩,
        fun h => by simp [OpCall.isEstop] at h⟩
  | chatbot url ty resp =>
      exact ⟨fun _ => ⟨rfl, loading_after_chatbot s url ty resp⟩,
        fun h => by simp [OpCall.isEstop] at h⟩
  | estop resp =>
      exact ⟨fun h => by simp [OpCall.isEstop] at h,
        fun _ => ⟨(estop_no_loading_steps resp).1,
          (estop_no_loading_steps resp).2, loading_after_estop s resp⟩⟩

/-- C3: witness — the amended statement at a concrete refresh and a concrete
successful emergency stop. -/
theorem C3_loading_lifecycle_witness :
    ((OpCall.refresh dashOkFull).steps.head? = some (Step.setLoading true) ∧
      (run initialState (OpCall.refresh dashOkFull).steps).loading = false) ∧
    (Step.setLoading true ∉ (OpCall.estop (Except.ok ())).steps ∧
      Step.setLoading false ∉ (OpCall.estop (Except.ok ())).steps ∧
      (run initialState (OpCall.estop (Except.ok ())).steps).loading =
        initialState.loading) :=
  ⟨(C3_loading_lifecycle (OpCall.refresh dashOkFull) initialState).1 rfl,
   (C3_loading_lifecycle (OpCall.estop (Except.ok ())) initialState).2 rfl⟩

/-- C4: every operation call that ends Failed leaves the three data slices
exactly as they were — no partial mutation — finishes with `loading` false
(emergencyStop does not manage the flag and leaves it at its prior, false,
value), and sets the error slice to that operation's human-readable
message. -/
theorem C4_failed_no_partial_write (c : OpCall) (s : AppState)
    (hf : c.failed = true) (hl : s.loading = false) :
    (run s c.steps).techniques = s.techniques ∧
    (run s c.steps).attackPlans = s.attackPlans ∧
    (run s c.steps).safetyConfig = s.safetyConfig ∧
    (run s c.steps).loading = false ∧
    (run s c.steps).error = some c.failMsg := by
  cases c with
  | refresh f =>
      cases h : fetchAll f with
      | ok v => simp [OpCall.failed, isErr, h] at hf
      | error e =>
          refine ⟨?_, ?_, ?_, ?_, ?_⟩ <;>
            simp [OpCall.steps, OpCall.failMsg, loadDashboardDataSteps,
              loadDashboardDataIssue, loadDashboardDataSettle, h, run,
              applyStep]
  | learn url resp dash =>
      cases resp with
      | ok o =>
          cases o with
          | some ts => simp [OpCall.failed] at hf
          | none => exact ⟨rfl, rfl, rfl, rfl, rfl⟩
      | error e => exact ⟨rfl, rfl, rfl, rfl, rfl⟩
  | plan t objs resp dash =>
      cases resp with
      | ok u => simp [OpCall.failed, isErr] at hf
      | error e => exact ⟨rfl, rfl, rfl, rfl, rfl⟩
  | chatbot url ty resp =>
      cases resp with
      | ok r => simp [OpCall.failed, isErr] at hf
      | error e => exact ⟨rfl, rfl, rfl, rfl, rfl⟩
  | estop resp =>
      cases resp with
      | ok u => simp [OpCall.failed, isErr] at hf
      | error e => exact ⟨rfl, rfl, rfl, hl, rfl⟩

/-- C4: witness — the property at a failed chatbot test from the initial
state. -/
theorem C4_failed_no_partial_write_witness :
    (run initialState
        (OpCall.chatbot "http://x" "basic" (Except.error "Network Error")).steps).techniques
      = initialState.techniques ∧
    (run initialState
        (OpCall.chatbot "http://x" "basic" (Except.error "Network Error")).steps).attackPlans
      = initialState.attackPlans ∧
    (run initialState
        (OpCall.chatbot "http://x" "basic" (Except.error "Network Error")).steps).safetyConfig
      = initialState.safetyConfig ∧
    (run initialState
        (OpCall.chatbot "http://x" "basic" (Except.error "Network Error")).steps).loading
      = false ∧
    (run initialState
        (OpCall.chatbot "http://x" "basic" (Except.error "Network Error")).steps).error
      = some "Failed to test chatbot" :=
  C4_failed_no_partial_write
    (OpCall.chatbot "http://x" "basic" (Except.error "Network Error"))
    initialState rfl rfl

/-- C5: after any sequence of successful refreshes, the three data slices
equal exactly the payload of the last fetch — each refresh replaces the
collections wholesale, never merging with the prior state. -/
theorem C5_latest_payload_wins (s : AppState) (fs : List DashboardFetch)
    (f : DashboardFetch) (ts : List Technique) (ps : List AttackPlan)
    (c : Option SafetyConfig)
    (_hprev : ∀ g ∈ fs, isErr (fetchAll g) = false)
    (hf : fetchAll f = Except.ok (some ts, some ps, c)) :
    (runRefreshes s (fs ++ [f])).techniques = ts ∧
    (runRefreshes s (fs ++ [f])).attackPlans = ps ∧
    (runRefreshes s (fs ++ [f])).safetyConfig = c := by
  have hsplit : runRefreshes s (fs ++ [f]) =
      run (runRefreshes s fs) (loadDashboardDataSteps f) := by
    unfold runRefreshes
    rw [List.foldl_append]
    rfl
  rw [hsplit]
  have h := refresh_success_slices (runRefreshes s fs) f (some ts) (some ps) c hf
  simpa using h

/-- C5: witness — a two-refresh sequence whose final state carries exactly
the last payload. -/
theorem C5_latest_payload_wins_witness :
    (runRefreshes initialState ([dashOkFull] ++ [dashPayload])).techniques
      = [tech1] ∧
    (runRefreshes initialState ([dashOkFull] ++ [dashPayload])).attackPlans
      = [plan1] ∧
    (runRefreshes initialState ([dashOkFull] ++ [dashPayload])).safetyConfig
      = some sampleConfig :=
  C5_latest_payload_wins initialState [dashOkFull] dashPayload [tech1] [plan1]
    (some sampleConfig)
    (by intro g hg; rw [List.mem_singleton] at hg; subst hg; rfl)
    rfl

/-- C6: a successful write operation issues the full refresh exactly once —
each of the three GETs appears exactly once in its request trace — while a
failed write operation (a rejected POST, or for learnFromUrl a response
without a `techniques` field) issues no refresh at all: its only request is
its own POST. -/
theorem C6_refresh_after_write (url : String) (ts : List Technique)
    (t : Target) (objs : List String) (e e' : String)
    (dash : DashboardFetch) :
    ((networkRequests (learnFromUrlSteps url (Except.ok (some ts)) dash)).count
        Request.getTechniques = 1 ∧
     (networkRequests (learnFromUrlSteps url (Except.ok (some ts)) dash)).count
        Request.getAttackPlans = 1 ∧
     (networkRequests (learnFromUrlSteps url (Except.ok (some ts)) dash)).count
        Request.getSafetyConfig = 1) ∧
    ((networkRequests (createAttackPlanSteps t objs (Except.ok ()) dash)).count
        Request.getTechniques = 1 ∧
     (networkRequests (createAttackPlanSteps t objs (Except.ok ()) dash)).count
        Request.getAttackPlans = 1 ∧
     (networkRequests (createAttackPlanSteps t objs (Except.ok ()) dash)).count
        Request.getSafetyConfig = 1) ∧
    networkRequests (learnFromUrlSteps url (Except.error e) dash) =
      [Request.postLearnUrl url] ∧
    networkRequests (learnFromUrlSteps url (Except.ok none) dash) =
      [Request.postLearnUrl url] ∧
    networkRequests (createAttackPlanSteps t objs (Except.error e') dash) =
      [Request.postAttackPlan t objs] := by
  refine ⟨⟨?_, ?_, ?_⟩, ⟨?_, ?_, ?_⟩, ?_, ?_, ?_⟩ <;>
    · simp only [learnFromUrlSteps, createAttackPlanSteps,
        networkRequests_append, networkRequests_settle]
      simp [networkRequests, loadDashboardDataIssue, List.count_cons]

/-- C7: `emergencyStop` issues only its own POST — never any refresh GET —
and on success leaves the entire state unchanged while surfacing the
acknowledgement alert; on failure it leaves the three data slices untouched
and sets the error slice. -/
theorem C7_emergency_stop_frame (s : AppState) (e : String) :
    networkRequests (emergencyStopSteps (Except.ok ())) =
      [Request.postEmergencyStop "Manual emergency stop from UI"] ∧
    networkRequests (emergencyStopSteps (Except.error e)) =
      [Request.postEmergencyStop "Manual emergency stop from UI"] ∧
    run s (emergencyStopSteps (Except.ok ())) = s ∧
    Step.alert "Emergency stop activated!" ∈
      emergencyStopSteps (Except.ok ()) ∧
    (run s (emergencyStopSteps (Except.error e))).techniques = s.techniques ∧
    (run s (emergencyStopSteps (Except.error e))).attackPlans = s.attackPlans ∧
    (run s (emergencyStopSteps (Except.error e))).safetyConfig =
      s.safetyConfig ∧
    (run s (emergencyStopSteps (Except.error e))).error =
      some "Failed to activate emergency stop" := by
  refine ⟨rfl, rfl, rfl, ?_, rfl, rfl, rfl, rfl⟩
  simp [emergencyStopSteps]

/-- C8: the view selector starts on the dashboard view, a tab click moves to
the selected view from any current view, and it changes nothing but
`activeTab`: no request is issued and the data, loading and error slices are
untouched. -/
theorem C8_view_selector (s : AppState) (tab : String) :
    initialState.activeTab = "dashboard" ∧
    (run s (selectTabSteps tab)).activeTab = tab ∧
    (run s (selectTabSteps tab)).techniques = s.techniques ∧
    (run s (selectTabSteps tab)).attackPlans = s.attackPlans ∧
    (run s (selectTabSteps tab)).safetyConfig = s.safetyConfig ∧
    (run s (selectTabSteps tab)).loading = s.loading ∧
    (run s (selectTabSteps tab)).error = s.error ∧
    networkRequests (selectTabSteps tab) = [] :=
  ⟨rfl, rfl, rfl, rfl, rfl, rfl, rfl, rfl⟩

/-- C9: the refresh is all-or-nothing across its three resources — if any one
of the three GETs is rejected, `Promise.all` rejects before any setter runs,
so none of the three data slices is written. -/
theorem C9_refresh_atomic (s : AppState) (f : DashboardFetch)
    (h : isErr f.techniquesRes = true ∨ isErr f.attacksRes = true ∨
      isErr f.safetyRes = true) :
    (run s (loadDashboardDataSteps f)).techniques = s.techniques ∧
    (run s (loadDashboardDataSteps f)).attackPlans = s.attackPlans ∧
    (run s (loadDashboardDataSteps f)).safetyConfig = s.safetyConfig := by
  obtain ⟨tr, ar, cr⟩ := f
  obtain ⟨e, he⟩ : ∃ e, fetchAll ⟨tr, ar, cr⟩ = Except.error e := by
    cases tr with
    | error e => exact ⟨e, rfl⟩
    | ok tv =>
        cases ar with
        | error e => exact ⟨e, rfl⟩
        | ok av =>
            cases cr with
            | error e => exact ⟨e, rfl⟩
            | ok cv => simp [isErr] at h
  refine ⟨?_, ?_, ?_⟩ <;>
    simp [loadDashboardDataSteps, loadDashboardDataIssue,
      loadDashboardDataSettle, he, run, applyStep]

/-- C9: witness — the property at a fetch whose techniques GET is
rejected. -/
theorem C9_refresh_atomic_witness :
    (run initialState (loadDashboardDataSteps dashFail)).techniques =
      initialState.techniques ∧
    (run initialState (loadDashboardDataSteps dashFail)).attackPlans =
      initialState.attackPlans ∧
    (run initialState (loadDashboardDataSteps dashFail)).safetyConfig =
      initialState.safetyConfig :=
  C9_refresh_atomic initialState dashFail (Or.inl rfl)

/-- C10: `testChatbot` never writes the data slices: its success trace is
exactly loading-on, the POST, the result alert, loading-off — the test result
is surfaced only through the alert, never stored — and on failure too the
three data slices are untouched. -/
theorem C10_chatbot_no_store (s : AppState) (url ty : String)
    (r : ChatbotResults) (e : String) :
    testChatbotSteps url ty (Except.ok r) =
      [Step.setLoading true, Step.request (Request.postChatbotTest url ty),
       Step.alert (chatbotAlertMsg r), Step.setLoading false] ∧
    (run s (testChatbotSteps url ty (Except.ok r))).techniques =
      s.techniques ∧
    (run s (testChatbotSteps url ty (Except.ok r))).attackPlans =
      s.attackPlans ∧
    (run s (testChatbotSteps url ty (Except.ok r))).safetyConfig =
      s.safetyConfig ∧
    (run s (testChatbotSteps url ty (Except.error e))).techniques =
      s.techniques ∧
    (run s (testChatbotSteps url ty (Except.error e))).attackPlans =
      s.attackPlans ∧
    (run s (testChatbotSteps url ty (Except.error e))).safetyConfig =
      s.safetyConfig :=
  ⟨rfl, rfl, rfl, rfl, rfl, rfl, rfl⟩

end RedhatAgent
